import Mathlib

/-
Verification development for the restaurant-search core: a shallow embedding
of the intent-resolution loop (services/ai_service.py), the seven search
strategies and their dispatcher (services/restaurant_service.py), and the
post-execution validation step used by the request handler
(lambda_function.py).  External collaborators (the Elasticsearch backend and
the language model) are modelled as oracles; each call site either receives a
well-typed reply or an exception string, matching the try/except boundaries of
the source.
-/

namespace NaverMap

/-! ## Data model: documents and backend responses -/

/-- One menu entry of a restaurant document.  The source reads menu entries as
dicts with keys `name`, `price`, `price_numeric`, `description`; the last two
may be absent. -/
structure MenuItem where
  name : String := ""
  price : String := ""
  price_numeric : Option Int := none
  description : Option String := none
deriving Repr, DecidableEq

/-- One image reference on a restaurant document (keys `url`, `alt`). -/
structure ImageRef where
  url : String := ""
  alt : String := ""
deriving Repr, DecidableEq

/-- The `_source` of one Elasticsearch document.  `name` and `category` are
always present in the index; the remaining keys may be absent, which the
source handles through `dict.get` defaults. -/
structure RestaurantDoc where
  name : String := ""
  category : String := ""
  menu : Option (List MenuItem) := none
  images : Option (List ImageRef) := none
  restaurant_id : Option String := none
  indexed_at : Option String := none
deriving Repr, DecidableEq

/-- One hit of an Elasticsearch response: `_source`, `_score`, `_id`, and the
inner hits on the nested `menu` path when the query requested them
(`inner_menu = none` models the absence of the `inner_hits` key). -/
structure ESHit where
  source : RestaurantDoc := {}
  score : ℚ := 0
  es_id : String := ""
  inner_menu : Option (List MenuItem) := none
deriving Repr, DecidableEq

/-- One bucket of a terms aggregation (`key`, `doc_count`). -/
structure ESBucket where
  key : String := ""
  doc_count : Nat := 0
deriving Repr, DecidableEq

/-- An Elasticsearch response as the source reads it:
`hits.total.value`, `hits.hits`, and (for aggregation queries)
`aggregations.categories.buckets`. -/
structure ESResponse where
  total : Nat := 0
  hits : List ESHit := []
  buckets : Option (List ESBucket) := none
deriving Repr, DecidableEq

/-- The structured query bodies the seven strategies build, one constructor
per distinct body shape, carrying exactly the parameters the source embeds
into the body.  The `unified` constructor records the `_source` projection
through its `include_details` flag. -/
inductive ESQuery where
  | unified (query : String) (include_details : Bool) (limit : Int)
  | byCategory (category : String) (limit : Int)
  | byMenu (menu_keyword : String) (limit : Int)
  | byPrice (min_price max_price : Option Int) (limit : Int)
  | detail (restaurant_name : String)
  | statsAgg
  | statsScan
  | similar (category : String) (exclude_name : String) (limit : Int)
deriving Repr, DecidableEq

/-- The search backend as an oracle: each issued query either returns a
response or raises, which the strategies catch (`Except.error e` models an
exception whose string form is `e`). -/
def ES : Type := ESQuery → Except String ESResponse

/-! ## Python rounding on idealized (rational) floats -/

/-- Rounding to the nearest integer with ties going to the even neighbour,
the rule Python `round` uses. -/
def roundHalfToEven (s : ℚ) : Int :=
  let f := Int.floor s
  let frac := s - (f : ℚ)
  if frac < 1/2 then f
  else if 1/2 < frac then f + 1
  else if f % 2 = 0 then f else f + 1

/-- Python `round(x, n)` on an idealized float represented as a rational. -/
def pyRound (x : ℚ) (n : Nat) : ℚ :=
  (roundHalfToEven (x * (10:ℚ)^n) : ℚ) / (10:ℚ)^n

/-! ## Result dictionaries -/

/-- One entry of a `results` (or `recommendations`) list.  The source builds
these as dicts; a field holding `none` models an absent key, and `name` and
`category` are present in every record the source builds. -/
structure RestaurantRecord where
  name : String := ""
  category : String := ""
  score : Option ℚ := none
  id : Option String := none
  menu : Option (List MenuItem) := none
  menu_count : Option Nat := none
  images : Option (List ImageRef) := none
  matching_menus : Option (List MenuItem) := none
  price_range_menus : Option (List MenuItem) := none
  similarity_reason : Option String := none
deriving Repr, DecidableEq

/-- The dict returned by any of the seven strategy functions.  Each strategy
populates a different subset of keys; a field holding `none` models an absent
key, exactly as the caller reads them through `dict.get` with defaults. -/
structure SearchResult where
  total : Option Nat := none
  results : Option (List RestaurantRecord) := none
  error : Option String := none
  query : Option String := none
  search_time_ms : Option Nat := none
  category : Option String := none
  menu_keyword : Option String := none
  min_price : Option (Option Int) := none
  max_price : Option (Option Int) := none
  restaurant_name : Option String := none
  name : Option String := none
  menu : Option (List MenuItem) := none
  menu_count : Option Nat := none
  images : Option (List ImageRef) := none
  restaurant_id : Option String := none
  indexed_at : Option String := none
  score : Option ℚ := none
  total_restaurants : Option Nat := none
  total_menus : Option Nat := none
  average_menus_per_restaurant : Option ℚ := none
  categories : Option (List (String × Nat)) := none
  top_categories : Option (List (String × Nat)) := none
  base_restaurant : Option String := none
  base_category : Option String := none
  recommendations : Option (List RestaurantRecord) := none
deriving Repr, DecidableEq

/-! ## The seven search strategies (RestaurantSearchAI) -/

/-- Record construction of `search_restaurants`: always `name`, `category`,
rounded `score` and `id` (`restaurant_id` with the hit id as default), plus
`menu` and `menu_count` only when `include_details` holds and the source
carries a `menu` key. -/
def unified_record (include_details : Bool) (hit : ESHit) : RestaurantRecord :=
  let base : RestaurantRecord :=
    { name := hit.source.name,
      category := hit.source.category,
      score := some (pyRound hit.score 2),
      id := some (hit.source.restaurant_id.getD hit.es_id) }
  if include_details then
    match hit.source.menu with
    | some m => { base with menu := some m, menu_count := some m.length }
    | none => base
  else base

/-- Unified search (`search_restaurants`).  Wall-clock timing is environmental
and modelled as 0 milliseconds. -/
def search_restaurants (es : ES) (query : String) (limit : Int := 10)
    (include_details : Bool := false) : SearchResult :=
  match es (.unified query include_details limit) with
  | .ok response =>
      { total := some response.total,
        results := some (response.hits.map (unified_record include_details)),
        query := some query,
        search_time_ms := some 0 }
  | .error e =>
      { error := some e, total := some 0, results := some [], query := some query }

/-- Category search (`search_by_category`). -/
def search_by_category (es : ES) (category : String) (limit : Int := 10) : SearchResult :=
  match es (.byCategory category limit) with
  | .ok response =>
      { total := some response.total,
        results := some (response.hits.map fun hit =>
          ({ name := hit.source.name,
             category := hit.source.category,
             score := some (pyRound hit.score 2) } : RestaurantRecord)),
        category := some category }
  | .error e =>
      { error := some e, total := some 0, results := some [] }

/-- Menu search (`search_by_menu`): attaches the nested inner hits as
`matching_menus` (name and price only, empty when the response carries no
inner hits). -/
def search_by_menu (es : ES) (menu_keyword : String) (limit : Int := 10) : SearchResult :=
  match es (.byMenu menu_keyword limit) with
  | .ok response =>
      { total := some response.total,
        results := some (response.hits.map fun hit =>
          ({ name := hit.source.name,
             category := hit.source.category,
             score := some (pyRound hit.score 2),
             matching_menus := some ((hit.inner_menu.getD []).map fun m =>
               ({ name := m.name, price := m.price } : MenuItem)) } : RestaurantRecord)),
        menu_keyword := some menu_keyword }
  | .error e =>
      { error := some e, total := some 0, results := some [] }

/-- Price-range search (`search_by_price_range`): with neither bound present
(`is not None` checks in the source) the strategy returns the
invalid-parameters error result without touching the backend. -/
def search_by_price_range (es : ES) (min_price : Option Int := none)
    (max_price : Option Int := none) (limit : Int := 10) : SearchResult :=
  if min_price = none ∧ max_price = none then
    { error := some "최소 가격 또는 최대 가격 중 하나는 지정해야 합니다.",
      total := some 0, results := some [] }
  else
    match es (.byPrice min_price max_price limit) with
    | .ok response =>
        { total := some response.total,
          results := some (response.hits.map fun hit =>
            ({ name := hit.source.name,
               category := hit.source.category,
               score := some (pyRound hit.score 2),
               price_range_menus := some ((hit.inner_menu.getD []).map fun m =>
                 ({ name := m.name, price := m.price,
                    price_numeric := some (m.price_numeric.getD 0) } : MenuItem)) } : RestaurantRecord)),
          min_price := some min_price,
          max_price := some max_price }
    | .error e =>
        { error := some e, total := some 0, results := some [] }

/-- Detail lookup (`get_restaurant_details`): zero total is the not-found
error; otherwise the source indexes the first hit (on a response with a
positive total but an empty hit list the IndexError is caught by the
surrounding handler and surfaced as an error result). -/
def get_restaurant_details (es : ES) (restaurant_name : String) : SearchResult :=
  match es (.detail restaurant_name) with
  | .error e => { error := some e, restaurant_name := some restaurant_name }
  | .ok response =>
    if response.total = 0 then
      { error := some "식당을 찾을 수 없습니다.", restaurant_name := some restaurant_name }
    else
      match response.hits with
      | [] => { error := some "list index out of range", restaurant_name := some restaurant_name }
      | hit :: _ =>
        let restaurant := hit.source
        { name := some restaurant.name,
          category := some restaurant.category,
          menu := some (restaurant.menu.getD []),
          menu_count := some (restaurant.menu.getD []).length,
          images := some (restaurant.images.getD []),
          restaurant_id := some (restaurant.restaurant_id.getD ""),
          indexed_at := some (restaurant.indexed_at.getD ""),
          score := some (pyRound hit.score 2) }

/-- Statistics (`get_statistics`): a terms aggregation over categories
followed by a bulk scan; the average menu count divides only when the scan
returned at least one document. -/
def get_statistics (es : ES) : SearchResult :=
  match es .statsAgg with
  | .error e => { error := some e }
  | .ok category_response =>
    match es .statsScan with
    | .error e => { error := some e }
    | .ok all_response =>
      let total_restaurants := all_response.hits.length
      let total_menus := (all_response.hits.map fun hit => (hit.source.menu.getD []).length).sum
      let categories := (category_response.buckets.getD []).map fun b => (b.key, b.doc_count)
      { total_restaurants := some total_restaurants,
        total_menus := some total_menus,
        average_menus_per_restaurant :=
          some (if total_restaurants > 0 then
                  pyRound ((total_menus : ℚ) / (total_restaurants : ℚ)) 1
                else 0),
        categories := some categories,
        top_categories := some ((categories.mergeSort fun a b => b.2 ≤ a.2).take 10) }

/-- Similarity recommendation (`recommend_similar_restaurants`): resolves the
base restaurant through the detail lookup, returns that result unchanged when
it carries an `error` key, and otherwise queries for same-category
restaurants excluding the queried name. -/
def recommend_similar_restaurants (es : ES) (restaurant_name : String)
    (limit : Int := 5) : SearchResult :=
  let base_restaurant := get_restaurant_details es restaurant_name
  if base_restaurant.error.isSome then base_restaurant
  else
    let base_category := base_restaurant.category.getD ""
    match es (.similar base_category restaurant_name limit) with
    | .error e => { error := some e, restaurant_name := some restaurant_name }
    | .ok response =>
      let recommendations := response.hits.map fun hit =>
        ({ name := hit.source.name,
           category := hit.source.category,
           similarity_reason := some ("같은 카테고리 (" ++ base_category ++ ")") } : RestaurantRecord)
      { base_restaurant := some restaurant_name,
        base_category := some base_category,
        recommendations := some recommendations,
        total := some recommendations.length }

/-! ## Actions and the dispatcher (RestaurantService.execute_search) -/

/-- The arguments of a tool invocation (`item["input"]`), typed against the
keys declared by the fixed tool catalog; a field holding `none` models an
absent key. -/
structure ActionParams where
  query : Option String := none
  limit : Option Int := none
  include_details : Option Bool := none
  category : Option String := none
  menu_keyword : Option String := none
  min_price : Option Int := none
  max_price : Option Int := none
  restaurant_name : Option String := none
  keyword : Option String := none
deriving Repr, DecidableEq

/-- The dict the resolver hands to the dispatcher: `action`, `params`,
`ai_reasoning`. -/
structure ActionResult where
  action : String := ""
  params : ActionParams := {}
  ai_reasoning : String := ""
deriving Repr, DecidableEq

/-- The seven tool names of the fixed catalog (utils/tools.py), which are
also the seven recognized dispatch cases. -/
def known_actions : List String :=
  ["search_restaurants", "search_by_category", "search_by_menu",
   "search_by_price_range", "get_restaurant_details", "get_statistics",
   "recommend_similar_restaurants"]

/-- The dispatcher (`execute_search`).  Recognized names forward `params` by
keyword expansion, so a missing required argument or an unexpected key raises
a TypeError, which no handler in the dispatcher catches
(`Except.error`).  An unrecognized name falls back to unified search with
`params.get("keyword", params.get("query", "맛집"))`. -/
def execute_search (es : ES) (ai_response : ActionResult) : Except String SearchResult :=
  let action := ai_response.action
  let params := ai_response.params
  if action = "search_restaurants" then
    if params.category.isSome || params.menu_keyword.isSome || params.min_price.isSome ||
        params.max_price.isSome || params.restaurant_name.isSome || params.keyword.isSome then
      .error "TypeError: unexpected keyword argument"
    else
      match params.query with
      | none => .error "TypeError: missing required argument query"
      | some q => .ok (search_restaurants es q (params.limit.getD 10) (params.include_details.getD false))
  else if action = "search_by_category" then
    if params.query.isSome || params.include_details.isSome || params.menu_keyword.isSome ||
        params.min_price.isSome || params.max_price.isSome || params.restaurant_name.isSome ||
        params.keyword.isSome then
      .error "TypeError: unexpected keyword argument"
    else
      match params.category with
      | none => .error "TypeError: missing required argument category"
      | some c => .ok (search_by_category es c (params.limit.getD 10))
  else if action = "search_by_menu" then
    if params.query.isSome || params.include_details.isSome || params.category.isSome ||
        params.min_price.isSome || params.max_price.isSome || params.restaurant_name.isSome ||
        params.keyword.isSome then
      .error "TypeError: unexpected keyword argument"
    else
      match params.menu_keyword with
      | none => .error "TypeError: missing required argument menu_keyword"
      | some k => .ok (search_by_menu es k (params.limit.getD 10))
  else if action = "search_by_price_range" then
    if params.query.isSome || params.include_details.isSome || params.category.isSome ||
        params.menu_keyword.isSome || params.restaurant_name.isSome || params.keyword.isSome then
      .error "TypeError: unexpected keyword argument"
    else
      .ok (search_by_price_range es params.min_price params.max_price (params.limit.getD 10))
  else if action = "get_restaurant_details" then
    if params.query.isSome || params.limit.isSome || params.include_details.isSome ||
        params.category.isSome || params.menu_keyword.isSome || params.min_price.isSome ||
        params.max_price.isSome || params.keyword.isSome then
      .error "TypeError: unexpected keyword argument"
    else
      match params.restaurant_name with
      | none => .error "TypeError: missing required argument restaurant_name"
      | some n => .ok (get_restaurant_details es n)
  else if action = "get_statistics" then
    .ok (get_statistics es)
  else if action = "recommend_similar_restaurants" then
    if params.query.isSome || params.include_details.isSome || params.category.isSome ||
        params.menu_keyword.isSome || params.min_price.isSome || params.max_price.isSome ||
        params.keyword.isSome then
      .error "TypeError: unexpected keyword argument"
    else
      match params.restaurant_name with
      | none => .error "TypeError: missing required argument restaurant_name"
      | some n => .ok (recommend_similar_restaurants es n (params.limit.getD 5))
  else
    .ok (search_restaurants es (params.keyword.getD (params.query.getD "맛집")) 10 false)

/-! ## Intent resolver (AIService) -/

/-- Retry and threshold configuration of `AIService`. -/
def max_retries : Nat := 3

/-- Minimum result count below which a nonzero total is still unsatisfactory. -/
def min_results_threshold : Nat := 2

/-- Default fallback action (`_get_fallback_action`): unified search over the
given query, or the literal "맛집" when the query is empty (Python
truthiness). -/
def get_fallback_action (user_query : String) : ActionResult :=
  { action := "search_restaurants",
    params := { query := some (if user_query ≠ "" then user_query else "맛집") },
    ai_reasoning := "폴백: 통합 검색 사용" }

/-- One item of the model reply content: explanatory text, a tool invocation,
or any other content type. -/
inductive ContentItem where
  | text (s : String)
  | tool_use (name : String) (input : ActionParams)
  | other (t : String)
deriving Repr, DecidableEq

/-- Recognizer for tool-invocation items. -/
def ContentItem.isToolUse : ContentItem → Bool
  | .tool_use _ _ => true
  | _ => false

/-- Reasoning extraction (`_extract_reasoning`): all nonempty stripped text
segments joined by one space, otherwise the name of the first tool
invocation, otherwise a fixed note. -/
def extract_reasoning (content : List ContentItem) : String :=
  let reasoning_parts := content.filterMap fun item =>
    match item with
    | .text s => (fun t => if t ≠ "" then some t else none) s.trim
    | _ => none
  if reasoning_parts ≠ [] then
    String.intercalate " " reasoning_parts
  else
    match content.find? ContentItem.isToolUse with
    | some (.tool_use n _) => "선택된 도구: " ++ n
    | _ => "AI 추론 정보 없음"

/-- Reply parsing (`_parse_ai_response`): the first tool invocation becomes
the candidate action; without one the candidate is the default fallback over
the literal "기본 검색" with an adjusted reasoning note. -/
def parse_ai_response (content : List ContentItem) : ActionResult :=
  let reasoning := extract_reasoning content
  match content.find? ContentItem.isToolUse with
  | some (.tool_use n inp) => { action := n, params := inp, ai_reasoning := reasoning }
  | _ =>
    let fallback_result := get_fallback_action "기본 검색"
    { fallback_result with
        ai_reasoning := if reasoning ≠ "" then reasoning else "도구 선택 없음, 기본 검색 사용" }

/-- Python truthiness of an optional integer parameter: present and nonzero. -/
def truthy_int : Option Int → Bool
  | none => false
  | some v => v != 0

/-- Python substring membership (`sub in s`), checked on the character
lists: some suffix of `s` starts with `sub`. -/
def contains_sub (s sub : String) : Bool :=
  (List.range (s.data.length + 1)).any fun i => sub.data.isPrefixOf (s.data.drop i)

/-- Specificity condition (`_is_query_too_specific`): a detail lookup whose
target name is longer than 15 characters or itself contains "맛집". -/
def is_query_too_specific (user_query action : String) (params : ActionParams) : Bool × String :=
  if action = "get_restaurant_details" then
    let restaurant_name := params.restaurant_name.getD ""
    if restaurant_name.length > 15 || contains_sub restaurant_name "맛집" then
      (true, "너무 구체적인 식당명 검색")
    else (false, "")
  else (false, "")

/-- Price condition (`_is_price_search_problematic`): both bounds truthy with
a spread under 5000, or a truthy minimum above 50000. -/
def is_price_search_problematic (action : String) (params : ActionParams) : Bool × String :=
  if action = "search_by_price_range" then
    let min_price := params.min_price
    let max_price := params.max_price
    if truthy_int min_price && truthy_int max_price &&
        decide (max_price.getD 0 - min_price.getD 0 < 5000) then
      (true, "가격 범위가 너무 좁음")
    else if truthy_int min_price && decide (min_price.getD 0 > 50000) then
      (true, "가격대가 너무 높음")
    else (false, "")
  else (false, "")

/-- The fixed generic-intent keyword list of `_is_specific_restaurant_risky`. -/
def general_keywords : List String := ["맛집", "추천", "찾아", "어디", "뭐가"]

/-- Generic-versus-specific condition (`_is_specific_restaurant_risky`): a
detail lookup while the original query contains a generic keyword. -/
def is_specific_restaurant_risky (action : String) (params : ActionParams)
    (user_query : String) : Bool × String :=
  if action = "get_restaurant_details" then
    if general_keywords.any (fun keyword => contains_sub user_query keyword) then
      (true, "일반적인 질의인데 특정 식당 검색으로 해석됨")
    else (false, "")
  else (false, "")

/-- Pre-execution retry predicate (`_should_retry_search`): never on the last
allowed attempt; otherwise on an empty action, or on the first firing
condition of the fixed list. -/
def should_retry_search (action_result : ActionResult) (user_query : String)
    (attempt : Nat) : Bool × String :=
  if attempt ≥ max_retries - 1 then (false, "최대 재시도 횟수 도달")
  else
    let action := action_result.action
    let params := action_result.params
    if action = "" then (true, "유효한 액션이 선택되지 않음")
    else
      let retry_conditions :=
        [is_query_too_specific user_query action params,
         is_price_search_problematic action params,
         is_specific_restaurant_risky action params user_query]
      match retry_conditions.find? (fun c => c.1) with
      | some c => (true, c.2)
      | none => (false, "재시도 불필요")

/-- The language model as an oracle indexed by the attempt number: `none`
models an exception inside the API call (transport failure or a non-200
status), `some content` a parsed reply body. -/
def ModelOracle : Type := Nat → Option (List ContentItem)

/-- Attempt loop of `analyze_query`: the fuel argument counts the iterations
the `for` loop still has, the attempt argument is the current loop index, and
the returned number counts the model calls made in total.  One oracle
consultation happens per iteration; an exception on the last allowed attempt
(and exhaustion of the loop) yields the fallback action. -/
def analyze_query_loop (oracle : ModelOracle) (user_query : String) :
    Nat → Nat → ActionResult × Nat
  | 0, attempt => (get_fallback_action user_query, attempt)
  | fuel + 1, attempt =>
    match oracle attempt with
    | none =>
      if attempt = max_retries - 1 then (get_fallback_action user_query, attempt + 1)
      else analyze_query_loop oracle user_query fuel (attempt + 1)
    | some content =>
      let action_result := parse_ai_response content
      if (should_retry_search action_result user_query attempt).1 then
        analyze_query_loop oracle user_query fuel (attempt + 1)
      else (action_result, attempt + 1)

/-- Intent resolution (`analyze_query`): the bounded attempt loop started at
attempt 0 with `max_retries` iterations available. -/
def analyze_query (oracle : ModelOracle) (user_query : String) : ActionResult × Nat :=
  analyze_query_loop oracle user_query max_retries 0

/-! ## Post-execution validation (lambda_function.py) -/

/-- Verdict the handler reads: `is_satisfactory`, a suggestion string, and an
optional alternative action executed exactly once more. -/
structure ValidationResult where
  is_satisfactory : Bool := true
  suggestion : String := ""
  alternative_action : Option ActionResult := none
deriving Repr, DecidableEq

/-- Modelled from the spec: `validate_search_results` is invoked by
`lambda_handler` (lambda_function.py) but its definition is absent from the
sources.  Per the spec (4.4, post-execution validation): unsatisfactory with
the widen-to-default alternative (unified search, query "맛집", limit 10) on a
zero total; unsatisfactory with the widen-to-original alternative (unified
search, original query, limit 15) on a nonzero total under
`min_results_threshold`; otherwise satisfactory with no alternative.  A total
read from a result dict without the key defaults to 0. -/
def validate_search_results (search_results : SearchResult) (user_query : String) :
    ValidationResult :=
  let total := search_results.total.getD 0
  if total = 0 then
    { is_satisfactory := false,
      suggestion := "검색 결과가 없어 기본 검색으로 대체합니다",
      alternative_action := some
        { action := "search_restaurants",
          params := { query := some "맛집", limit := some 10 },
          ai_reasoning := "대안: 기본 통합 검색" } }
  else if total < min_results_threshold then
    { is_satisfactory := false,
      suggestion := "검색 결과가 부족하여 범위를 넓힙니다",
      alternative_action := some
        { action := "search_restaurants",
          params := { query := some user_query, limit := some 15 },
          ai_reasoning := "대안: 원래 질의로 확장 검색" } }
  else
    { is_satisfactory := true,
      suggestion := "만족스러운 검색 결과",
      alternative_action := none }

/-! ## Derived notions used by the statements -/

/-- The SearchResult invariant of the data model: a zero total (a result dict
without the key reads as total 0) forces empty result and recommendation
lists, and the presence of an `error` key forces a zero total. -/
def result_invariant (r : SearchResult) : Prop :=
  (r.total.getD 0 = 0 → r.results.getD [] = [] ∧ r.recommendations.getD [] = []) ∧
  (r.error.isSome = true → r.total.getD 0 = 0)

/-- Well-formedness of the backend oracle: a response reporting a zero total
carries no hits.  This is part of the search-backend contract; the strategies
echo `hits.total.value` and materialize `hits.hits` without cross-checking
them. -/
def well_formed_es (es : ES) : Prop :=
  ∀ q resp, es q = .ok resp → resp.total = 0 → resp.hits = []

/-- The pre-execution retry condition exactly as the claim words it, with the
unrecognized-action clause included, stated for comparison against
`should_retry_search`. -/
def spec_retry_condition (ar : ActionResult) (user_query : String) : Prop :=
  (ar.action = "" ∨ ar.action ∉ known_actions) ∨
  (ar.action = "get_restaurant_details" ∧
    ((ar.params.restaurant_name.getD "").length > 15 ∨
     contains_sub (ar.params.restaurant_name.getD "") "맛집" = true)) ∨
  (ar.action = "search_by_price_range" ∧
    ((ar.params.min_price ≠ none ∧ ar.params.max_price ≠ none ∧
      ar.params.max_price.getD 0 - ar.params.min_price.getD 0 < 5000) ∨
     (ar.params.min_price ≠ none ∧ ar.params.min_price.getD 0 > 50000))) ∨
  (ar.action = "get_restaurant_details" ∧ ∃ k ∈ general_keywords, contains_sub user_query k = true)

/-! ## Theorems -/

/-- Claim C1: the post-execution validator returns an unsatisfactory verdict
with the widen-to-default alternative (unified search, query "맛집",
limit 10) on a zero total, an unsatisfactory verdict with the
widen-to-original alternative (unified search, original query, limit 15) on a
nonzero total below the threshold 2, and a satisfactory verdict with no
alternative on a total of at least 2, for every search result and query. -/
theorem c1_validate_search_results (r : SearchResult) (q : String) :
    (r.total.getD 0 = 0 →
      (validate_search_results r q).is_satisfactory = false ∧
      ∃ a, (validate_search_results r q).alternative_action = some a ∧
        a.action = "search_restaurants" ∧ a.params.query = some "맛집" ∧
        a.params.limit = some 10) ∧
    (0 < r.total.getD 0 → r.total.getD 0 < min_results_threshold →
      (validate_search_results r q).is_satisfactory = false ∧
      ∃ a, (validate_search_results r q).alternative_action = some a ∧
        a.action = "search_restaurants" ∧ a.params.query = some q ∧
        a.params.limit = some 15) ∧
    (min_results_threshold ≤ r.total.getD 0 →
      (validate_search_results r q).is_satisfactory = true ∧
      (validate_search_results r q).alternative_action = none) := by
  unfold validate_search_results
  refine ⟨fun h0 => ?_, fun hpos hlt => ?_, fun hge => ?_⟩
  · simp [h0]
  · rw [if_neg (by omega), if_pos hlt]
    simp
  · rw [if_neg (by unfold min_results_threshold at hge; omega),
      if_neg (by omega)]
    simp

/-- Witness for C1 at totals 0, 1 and 5. -/
theorem c1_validate_search_results_witness :
    ((validate_search_results ({ total := some 0 } : SearchResult) "국수").is_satisfactory = false ∧
      ∃ a, (validate_search_results ({ total := some 0 } : SearchResult) "국수").alternative_action = some a ∧
        a.action = "search_restaurants" ∧ a.params.query = some "맛집" ∧ a.params.limit = some 10) ∧
    ((validate_search_results ({ total := some 1 } : SearchResult) "국수").is_satisfactory = false ∧
      ∃ a, (validate_search_results ({ total := some 1 } : SearchResult) "국수").alternative_action = some a ∧
        a.action = "search_restaurants" ∧ a.params.query = some "국수" ∧ a.params.limit = some 15) ∧
    ((validate_search_results ({ total := some 5 } : SearchResult) "국수").is_satisfactory = true ∧
      (validate_search_results ({ total := some 5 } : SearchResult) "국수").alternative_action = none) :=
  ⟨(c1_validate_search_results { total := some 0 } "국수").1 rfl,
   (c1_validate_search_results { total := some 1 } "국수").2.1 (by decide) (by decide),
   (c1_validate_search_results { total := some 5 } "국수").2.2 (by decide)⟩

/-- Claim C10: the statistics strategy never divides by zero; when the bulk
scan returns zero restaurant documents, the reported average menu count is 0
(and the restaurant count is 0). -/
theorem c10_statistics_zero_docs (es : ES) (agg scan : ESResponse)
    (hagg : es .statsAgg = .ok agg) (hscan : es .statsScan = .ok scan)
    (hempty : scan.hits = []) :
    (get_statistics es).average_menus_per_restaurant = some 0 ∧
    (get_statistics es).total_restaurants = some 0 := by
  unfold get_statistics
  rw [hagg, hscan]
  simp [hempty]

/-- Witness for C10 on a backend whose every response is empty. -/
theorem c10_statistics_zero_docs_witness :
    (get_statistics (fun _ => .ok ({} : ESResponse))).average_menus_per_restaurant = some 0 ∧
    (get_statistics (fun _ => .ok ({} : ESResponse))).total_restaurants = some 0 :=
  c10_statistics_zero_docs _ {} {} rfl rfl rfl

/-- Claim C8: price-range search with neither bound present returns the
invalid-parameters error result (error message set, zero total, empty
records) instead of raising; with at least one bound present, any surfaced
error comes from the backend call, never from parameter validation. -/
theorem c8_price_range_params (es : ES) (mn mx : Option Int) (lim : Int) :
    (mn = none → mx = none →
      search_by_price_range es mn mx lim =
        { error := some "최소 가격 또는 최대 가격 중 하나는 지정해야 합니다.",
          total := some 0, results := some [] }) ∧
    (mn ≠ none ∨ mx ≠ none →
      ∀ e, (search_by_price_range es mn mx lim).error = some e →
        es (.byPrice mn mx lim) = .error e) := by
  constructor
  · intro h1 h2
    unfold search_by_price_range
    rw [if_pos ⟨h1, h2⟩]
  · intro hsome e herr
    unfold search_by_price_range at herr
    rw [if_neg (by tauto)] at herr
    cases hq : es (.byPrice mn mx lim) with
    | ok resp => rw [hq] at herr; simp at herr
    | error e2 => rw [hq] at herr; simp at herr; rw [herr]

/-- Witness for C8: the no-bounds case, and the one-bound case over a backend
that raises. -/
theorem c8_price_range_params_witness :
    (search_by_price_range (fun _ => .error "연결 실패") none none 10 =
      { error := some "최소 가격 또는 최대 가격 중 하나는 지정해야 합니다.",
        total := some 0, results := some [] }) ∧
    ((fun _ => .error "연결 실패" : ES) (.byPrice (some 1000) none 10) = .error "연결 실패") :=
  ⟨(c8_price_range_params (fun _ => .error "연결 실패") none none 10).1 rfl rfl,
   (c8_price_range_params (fun _ => .error "연결 실패") (some 1000) none 10).2
     (Or.inl (by simp)) "연결 실패" (by decide)⟩

/-- Claim C9: unified search with `include_details = false` projects every
record to name and category (plus score and id); no record carries a menu,
menu count, image, matching-menu, price-menu or similarity field. -/
theorem c9_projection_contract (es : ES) (q : String) (lim : Int) (r : RestaurantRecord)
    (hr : r ∈ (search_restaurants es q lim false).results.getD []) :
    r.menu = none ∧ r.images = none ∧ r.menu_count = none ∧
    r.matching_menus = none ∧ r.price_range_menus = none ∧
    r.similarity_reason = none := by
  unfold search_restaurants at hr
  cases hq : es (.unified q false lim) with
  | error e => rw [hq] at hr; simp at hr
  | ok resp =>
    rw [hq] at hr
    simp only [Option.getD_some] at hr
    rcases List.mem_map.mp hr with ⟨hit, _, rfl⟩
    simp [unified_record]

/-- Witness for C9 on a backend returning one concrete hit. -/
theorem c9_projection_contract_witness :
    (({ name := "김밥천국", category := "한식", score := some (pyRound 1 2),
        id := some "doc1" } : RestaurantRecord).menu = none) ∧
    ({ name := "김밥천국", category := "한식", score := some (pyRound 1 2),
        id := some "doc1" } : RestaurantRecord).images = none :=
  have h := c9_projection_contract
    (fun _ => .ok { total := 1, hits := [{ source := { name := "김밥천국", category := "한식" },
                                           score := 1, es_id := "doc1" }] })
    "김밥" 10
    { name := "김밥천국", category := "한식", score := some (pyRound 1 2), id := some "doc1" }
    (by simp [search_restaurants, unified_record])
  ⟨h.1, h.2.1⟩

/-- Invariant of unified search results. -/
theorem invariant_search_restaurants (es : ES) (hwf : well_formed_es es)
    (q : String) (lim : Int) (inc : Bool) :
    result_invariant (search_restaurants es q lim inc) := by
  unfold search_restaurants result_invariant
  cases hq : es (.unified q inc lim) with
  | error e => simp
  | ok resp =>
    refine ⟨fun h0 => ?_, fun herr => by simp at herr⟩
    simp only [Option.getD_some] at h0 ⊢
    rw [hwf _ _ hq h0]
    simp

/-- Invariant of category search results. -/
theorem invariant_search_by_category (es : ES) (hwf : well_formed_es es)
    (cat : String) (lim : Int) :
    result_invariant (search_by_category es cat lim) := by
  unfold search_by_category result_invariant
  cases hq : es (.byCategory cat lim) with
  | error e => simp
  | ok resp =>
    refine ⟨fun h0 => ?_, fun herr => by simp at herr⟩
    simp only [Option.getD_some] at h0 ⊢
    rw [hwf _ _ hq h0]
    simp

/-- Invariant of menu search results. -/
theorem invariant_search_by_menu (es : ES) (hwf : well_formed_es es)
    (mk : String) (lim : Int) :
    result_invariant (search_by_menu es mk lim) := by
  unfold search_by_menu result_invariant
  cases hq : es (.byMenu mk lim) with
  | error e => simp
  | ok resp =>
    refine ⟨fun h0 => ?_, fun herr => by simp at herr⟩
    simp only [Option.getD_some] at h0 ⊢
    rw [hwf _ _ hq h0]
    simp

/-- Invariant of price-range search results. -/
theorem invariant_search_by_price_range (es : ES) (hwf : well_formed_es es)
    (mn mx : Option Int) (lim : Int) :
    result_invariant (search_by_price_range es mn mx lim) := by
  unfold search_by_price_range result_invariant
  by_cases hnone : mn = none ∧ mx = none
  · rw [if_pos hnone]; simp
  · rw [if_neg hnone]
    cases hq : es (.byPrice mn mx lim) with
    | error e => simp
    | ok resp =>
      refine ⟨fun h0 => ?_, fun herr => by simp at herr⟩
      simp only [Option.getD_some] at h0 ⊢
      rw [hwf _ _ hq h0]
      simp

/-- Invariant of detail-lookup results (all four exit paths). -/
theorem invariant_get_restaurant_details (es : ES) (rn : String) :
    result_invariant (get_restaurant_details es rn) := by
  unfold get_restaurant_details result_invariant
  cases hq : es (.detail rn) with
  | error e => simp
  | ok resp =>
    dsimp only
    by_cases h0 : resp.total = 0
    · rw [if_pos h0]; simp
    · rw [if_neg h0]
      cases hh : resp.hits with
      | nil => simp
      | cons hit rest => simp

/-- Invariant of statistics results (the result dict never carries `total`,
`results`, or `recommendations` keys). -/
theorem invariant_get_statistics (es : ES) :
    result_invariant (get_statistics es) := by
  unfold get_statistics result_invariant
  cases es .statsAgg with
  | error e => simp
  | ok agg =>
    cases es .statsScan with
    | error e => simp
    | ok scan => simp

/-- Invariant of similarity-recommendation results (error propagation from the
base lookup, backend failure, and the success path whose total is the length
of the recommendation list). -/
theorem invariant_recommend_similar (es : ES) (rn : String) (lim : Int) :
    result_invariant (recommend_similar_restaurants es rn lim) := by
  unfold recommend_similar_restaurants
  by_cases hbase : (get_restaurant_details es rn).error.isSome
  · rw [if_pos hbase]
    exact invariant_get_restaurant_details es rn
  · rw [if_neg hbase]
    unfold result_invariant
    dsimp only
    cases hq : es (.similar ((get_restaurant_details es rn).category.getD "") rn lim) with
    | error e => simp
    | ok resp =>
      refine ⟨fun h0 => ?_, fun herr => by simp at herr⟩
      simp only [Option.getD_some] at h0 ⊢
      refine ⟨rfl, ?_⟩
      rw [List.length_eq_zero] at h0
      simp [h0]

/-- Claim C6: every SearchResult produced by any of the seven strategies, the
error and lookup-failure paths included, satisfies the invariant that a zero
total forces empty records and an error field forces a zero total; the list
strategies rely on the backend reporting a zero total only with an empty hit
list. -/
theorem c6_invariant_all_strategies (es : ES) (hwf : well_formed_es es)
    (q cat mk rn : String) (mn mx : Option Int) (lim : Int) (inc : Bool) :
    result_invariant (search_restaurants es q lim inc) ∧
    result_invariant (search_by_category es cat lim) ∧
    result_invariant (search_by_menu es mk lim) ∧
    result_invariant (search_by_price_range es mn mx lim) ∧
    result_invariant (get_restaurant_details es rn) ∧
    result_invariant (get_statistics es) ∧
    result_invariant (recommend_similar_restaurants es rn lim) :=
  ⟨invariant_search_restaurants es hwf q lim inc,
   invariant_search_by_category es hwf cat lim,
   invariant_search_by_menu es hwf mk lim,
   invariant_search_by_price_range es hwf mn mx lim,
   invariant_get_restaurant_details es rn,
   invariant_get_statistics es,
   invariant_recommend_similar es rn lim⟩

/-- Witness for C6 on the empty backend. -/
theorem c6_invariant_all_strategies_witness :
    result_invariant (search_restaurants (fun _ => .ok {}) "국수" 10 false) ∧
    result_invariant (search_by_category (fun _ => .ok {}) "한식" 10) ∧
    result_invariant (search_by_menu (fun _ => .ok {}) "갈비찜" 10) ∧
    result_invariant (search_by_price_range (fun _ => .ok {}) none (some 5000) 10) ∧
    result_invariant (get_restaurant_details (fun _ => .ok {}) "은하수") ∧
    result_invariant (get_statistics (fun _ => .ok {})) ∧
    result_invariant (recommend_similar_restaurants (fun _ => .ok {}) "은하수" 10) :=
  c6_invariant_all_strategies (fun _ => .ok {})
    (by intro qq resp h ht; cases h; rfl)
    "국수" "한식" "갈비찜" "은하수" none (some 5000) 10 false

/-- Counterexample to claim C5 as stated: with both `query` and `keyword`
present, the dispatcher sends the keyword value ("김밥"), not the query value
("쌀국수"), to the fallback unified search — `params.get` consults `keyword`
first. -/
theorem c5_keyword_precedence_counterexample :
    ((execute_search (fun _ => .ok { total := 1, hits := [] })
        { action := "unknown_action",
          params := { query := some "쌀국수", keyword := some "김밥" } }).toOption.map
      (fun r => r.query)) = some (some "김밥") ∧
    (execute_search (fun _ => .ok { total := 1, hits := [] })
        { action := "unknown_action",
          params := { query := some "쌀국수", keyword := some "김밥" } }).toOption ≠
      some (search_restaurants (fun _ => .ok { total := 1, hits := [] }) "쌀국수" 10 false) := by
  decide

/-- Claim C5 (amended): on an unrecognized action name the dispatcher falls
back to unified search with the query taken from `params.keyword`, or else
`params.query`, or else the literal "맛집" (keyword takes precedence over
query), with the default limit and no details; this path always yields a
search result and never raises. -/
theorem c5_amended_fallback_dispatch (es : ES) (p : ActionParams) (reasoning n : String)
    (hn : n ∉ known_actions) :
    execute_search es { action := n, params := p, ai_reasoning := reasoning } =
      .ok (search_restaurants es (p.keyword.getD (p.query.getD "맛집")) 10 false) := by
  simp only [known_actions, List.mem_cons, List.not_mem_nil, or_false, not_or] at hn
  obtain ⟨h1, h2, h3, h4, h5, h6, h7⟩ := hn
  unfold execute_search
  simp only [if_neg h1, if_neg h2, if_neg h3, if_neg h4, if_neg h5, if_neg h6, if_neg h7]

/-- Witness for the amended C5 at a concrete unrecognized action. -/
theorem c5_amended_fallback_dispatch_witness :
    execute_search (fun _ => .ok {})
      { action := "unknown_action",
        params := { query := some "쌀국수", keyword := some "김밥" } } =
      .ok (search_restaurants (fun _ => .ok {}) "김밥" 10 false) :=
  c5_amended_fallback_dispatch (fun _ => .ok {})
    { query := some "쌀국수", keyword := some "김밥" } "" "unknown_action" (by decide)

/-- Claim C7: similarity recommendation resolves the base restaurant through
the detail lookup and returns an error result from it unchanged; otherwise,
provided the backend honours the issued same-category-excluding-name filter,
every returned recommendation carries the base category, a name different
from the queried name, and the shared-category reason string. -/
theorem c7_similar_recommendations (es : ES) (rn : String) (lim : Int) :
    ((get_restaurant_details es rn).error.isSome = true →
      recommend_similar_restaurants es rn lim = get_restaurant_details es rn) ∧
    ((get_restaurant_details es rn).error = none →
      (∀ resp, es (.similar ((get_restaurant_details es rn).category.getD "") rn lim) = .ok resp →
        ∀ h ∈ resp.hits,
          h.source.category = (get_restaurant_details es rn).category.getD "" ∧
          h.source.name ≠ rn) →
      ∀ r ∈ (recommend_similar_restaurants es rn lim).recommendations.getD [],
        r.category = (get_restaurant_details es rn).category.getD "" ∧
        r.name ≠ rn ∧
        r.similarity_reason =
          some ("같은 카테고리 (" ++ (get_restaurant_details es rn).category.getD "" ++ ")")) := by
  constructor
  · intro h
    unfold recommend_similar_restaurants
    rw [if_pos h]
  · intro herrnone hfilter r hr
    unfold recommend_similar_restaurants at hr
    rw [if_neg (by simp [herrnone])] at hr
    dsimp only at hr
    cases hq : es (.similar ((get_restaurant_details es rn).category.getD "") rn lim) with
    | error e => rw [hq] at hr; simp at hr
    | ok resp =>
      rw [hq] at hr
      simp only [Option.getD_some] at hr
      rcases List.mem_map.mp hr with ⟨hit, hhit, rfl⟩
      rcases hfilter resp hq hit hhit with ⟨hc, hne⟩
      exact ⟨hc, hne, rfl⟩

/-- Witness for C7 on a backend with one base restaurant and one same-category
neighbour. -/
theorem c7_similar_recommendations_witness :
    ∀ r ∈ (recommend_similar_restaurants
        (fun q => match q with
          | .detail _ => .ok { total := 1, hits := [{ source := { name := "본점", category := "한식" } }] }
          | .similar _ _ _ => .ok { total := 1, hits := [{ source := { name := "다른집", category := "한식" } }] }
          | _ => .error "x")
        "본점" 5).recommendations.getD [],
      r.category = "한식" ∧ r.name ≠ "본점" ∧
      r.similarity_reason = some "같은 카테고리 (한식)" := by
  intro r hr
  have h := (c7_similar_recommendations
    (fun q => match q with
      | .detail _ => .ok { total := 1, hits := [{ source := { name := "본점", category := "한식" } }] }
      | .similar _ _ _ => .ok { total := 1, hits := [{ source := { name := "다른집", category := "한식" } }] }
      | _ => .error "x")
    "본점" 5).2 (by decide)
    (by intro resp hresp hh hmem
        cases hresp
        simp only [List.mem_singleton] at hmem
        subst hmem
        exact ⟨rfl, by decide⟩)
    r hr
  exact h

/-- Bound on the model calls the attempt loop makes: at most the remaining
fuel beyond the calls already counted. -/
theorem analyze_query_loop_calls_le (oracle : ModelOracle) (uq : String) :
    ∀ fuel attempt, (analyze_query_loop oracle uq fuel attempt).2 ≤ attempt + fuel := by
  intro fuel
  induction fuel with
  | zero => intro attempt; simp [analyze_query_loop]
  | succ n ih =>
    intro attempt
    unfold analyze_query_loop
    cases h : oracle attempt with
    | none =>
      dsimp only
      by_cases hl : attempt = max_retries - 1
      · simp only [if_pos hl]; omega
      · simp only [if_neg hl]
        have := ih (attempt + 1); omega
    | some content =>
      dsimp only
      by_cases hr : (should_retry_search (parse_ai_response content) uq attempt).1 = true
      · simp only [hr, if_true]
        have := ih (attempt + 1); omega
      · simp only [Bool.not_eq_true] at hr
        simp only [hr, Bool.false_eq_true, if_false]
        omega

/-- Loop step: a failed model call before the last attempt moves on. -/
theorem analyze_loop_step_fail (oracle : ModelOracle) (uq : String) (fuel attempt : Nat)
    (h : oracle attempt = none) (hne : attempt ≠ max_retries - 1) :
    analyze_query_loop oracle uq (fuel + 1) attempt =
      analyze_query_loop oracle uq fuel (attempt + 1) := by
  conv_lhs => unfold analyze_query_loop
  rw [h]
  dsimp only
  rw [if_neg hne]

/-- Loop step: a failed model call on the last allowed attempt yields the
fallback action. -/
theorem analyze_loop_step_fail_last (oracle : ModelOracle) (uq : String) (fuel attempt : Nat)
    (h : oracle attempt = none) (heq : attempt = max_retries - 1) :
    analyze_query_loop oracle uq (fuel + 1) attempt = (get_fallback_action uq, attempt + 1) := by
  unfold analyze_query_loop
  rw [h]
  dsimp only
  rw [if_pos heq]

/-- Loop step: a reply whose parsed candidate fires the retry predicate moves
on to the next attempt. -/
theorem analyze_loop_step_retry (oracle : ModelOracle) (uq : String) (fuel attempt : Nat)
    (content : List ContentItem) (h : oracle attempt = some content)
    (hr : (should_retry_search (parse_ai_response content) uq attempt).1 = true) :
    analyze_query_loop oracle uq (fuel + 1) attempt =
      analyze_query_loop oracle uq fuel (attempt + 1) := by
  conv_lhs => unfold analyze_query_loop
  rw [h]
  dsimp only
  rw [if_pos hr]

/-- Loop step: a reply whose parsed candidate passes the retry predicate is
accepted. -/
theorem analyze_loop_step_accept (oracle : ModelOracle) (uq : String) (fuel attempt : Nat)
    (content : List ContentItem) (h : oracle attempt = some content)
    (hr : (should_retry_search (parse_ai_response content) uq attempt).1 = false) :
    analyze_query_loop oracle uq (fuel + 1) attempt = (parse_ai_response content, attempt + 1) := by
  unfold analyze_query_loop
  rw [h]
  dsimp only
  rw [if_neg (by simp [hr])]

/-- Claim C2: for every query and every sequence of model replies or
failures, the resolver makes at most `max_retries` (= 3) model calls and
returns an action; in particular, when every earlier attempt failed or
retried and the model call raises on the last allowed attempt, the returned
action is the default fallback over the original query. -/
theorem c2_resolver_terminates (oracle : ModelOracle) (uq : String) :
    (analyze_query oracle uq).2 ≤ max_retries ∧
    ((∀ i, i < max_retries - 1 →
        oracle i = none ∨
        ∃ c, oracle i = some c ∧ (should_retry_search (parse_ai_response c) uq i).1 = true) →
      oracle (max_retries - 1) = none →
      analyze_query oracle uq = (get_fallback_action uq, max_retries)) := by
  constructor
  · have h := analyze_query_loop_calls_le oracle uq max_retries 0
    simpa [analyze_query] using h
  · intro hreach hlast
    have s0 : analyze_query_loop oracle uq 3 0 = analyze_query_loop oracle uq 2 1 := by
      rcases hreach 0 (by decide) with h | ⟨c, hc, hr⟩
      · exact analyze_loop_step_fail oracle uq 2 0 h (by decide)
      · exact analyze_loop_step_retry oracle uq 2 0 c hc hr
    have s1 : analyze_query_loop oracle uq 2 1 = analyze_query_loop oracle uq 1 2 := by
      rcases hreach 1 (by decide) with h | ⟨c, hc, hr⟩
      · exact analyze_loop_step_fail oracle uq 1 1 h (by decide)
      · exact analyze_loop_step_retry oracle uq 1 1 c hc hr
    have s2 : analyze_query_loop oracle uq 1 2 = (get_fallback_action uq, 3) :=
      analyze_loop_step_fail_last oracle uq 0 2 hlast rfl
    show analyze_query_loop oracle uq max_retries 0 = (get_fallback_action uq, max_retries)
    rw [show max_retries = 3 from rfl, s0, s1, s2]

/-- Witness for C2 on the oracle that always raises. -/
theorem c2_resolver_terminates_witness :
    (analyze_query (fun _ => none) "초밥").2 ≤ max_retries ∧
    analyze_query (fun _ => none) "초밥" = (get_fallback_action "초밥", max_retries) :=
  ⟨(c2_resolver_terminates (fun _ => none) "초밥").1,
   (c2_resolver_terminates (fun _ => none) "초밥").2 (fun _ _ => Or.inl rfl) rfl⟩

/-- A reply without a tool invocation parses to the default unified-search
candidate over the literal "기본 검색". -/
theorem parse_no_tool_action (c : List ContentItem)
    (h : c.find? ContentItem.isToolUse = none) :
    (parse_ai_response c).action = "search_restaurants" ∧
    (parse_ai_response c).params.query = some "기본 검색" := by
  unfold parse_ai_response
  simp only [h]
  exact ⟨rfl, rfl⟩

/-- The retry predicate never fires on a unified-search candidate. -/
theorem should_retry_unified_false (p : ActionResult) (uq : String) (att : Nat)
    (hact : p.action = "search_restaurants") :
    (should_retry_search p uq att).1 = false := by
  unfold should_retry_search
  by_cases hl : att ≥ max_retries - 1
  · rw [if_pos hl]
  · rw [if_neg hl]
    dsimp only
    rw [if_neg (by rw [hact]; decide)]
    simp [is_query_too_specific, is_price_search_problematic,
      is_specific_restaurant_risky, hact, List.find?]

/-- Claim C4: when no model reply across the attempts contains a tool
invocation, the resolver deterministically returns the unified-search action,
with its query parameter either the original query (exception path) or the
"기본 검색" default (parsed-reply path). -/
theorem c4_fallback_determinism (oracle : ModelOracle) (uq : String) (hq : uq ≠ "")
    (hnotool : ∀ i c, oracle i = some c → ∀ item ∈ c, item.isToolUse = false) :
    (analyze_query oracle uq).1.action = "search_restaurants" ∧
    ((analyze_query oracle uq).1.params.query = some uq ∨
     (analyze_query oracle uq).1.params.query = some "기본 검색") := by
  have hfind : ∀ i c, oracle i = some c → c.find? ContentItem.isToolUse = none := by
    intro i c hc
    exact List.find?_eq_none.mpr fun x hx => by simp [hnotool i c hc x hx]
  cases h0 : oracle 0 with
  | some c0 =>
    have e : analyze_query oracle uq = (parse_ai_response c0, 1) :=
      analyze_loop_step_accept oracle uq 2 0 c0 h0
        (should_retry_unified_false _ uq 0 (parse_no_tool_action c0 (hfind 0 c0 h0)).1)
    rw [e]
    exact ⟨(parse_no_tool_action c0 (hfind 0 c0 h0)).1,
      Or.inr (parse_no_tool_action c0 (hfind 0 c0 h0)).2⟩
  | none =>
    have e0 : analyze_query oracle uq = analyze_query_loop oracle uq 2 1 :=
      analyze_loop_step_fail oracle uq 2 0 h0 (by decide)
    cases h1 : oracle 1 with
    | some c1 =>
      have e1 : analyze_query_loop oracle uq 2 1 = (parse_ai_response c1, 2) :=
        analyze_loop_step_accept oracle uq 1 1 c1 h1
          (should_retry_unified_false _ uq 1 (parse_no_tool_action c1 (hfind 1 c1 h1)).1)
      rw [e0, e1]
      exact ⟨(parse_no_tool_action c1 (hfind 1 c1 h1)).1,
        Or.inr (parse_no_tool_action c1 (hfind 1 c1 h1)).2⟩
    | none =>
      have e1 : analyze_query_loop oracle uq 2 1 = analyze_query_loop oracle uq 1 2 :=
        analyze_loop_step_fail oracle uq 1 1 h1 (by decide)
      cases h2 : oracle 2 with
      | some c2 =>
        have e2 : analyze_query_loop oracle uq 1 2 = (parse_ai_response c2, 3) :=
          analyze_loop_step_accept oracle uq 0 2 c2 h2
            (should_retry_unified_false _ uq 2 (parse_no_tool_action c2 (hfind 2 c2 h2)).1)
        rw [e0, e1, e2]
        exact ⟨(parse_no_tool_action c2 (hfind 2 c2 h2)).1,
          Or.inr (parse_no_tool_action c2 (hfind 2 c2 h2)).2⟩
      | none =>
        have e2 : analyze_query_loop oracle uq 1 2 = (get_fallback_action uq, 3) :=
          analyze_loop_step_fail_last oracle uq 0 2 h2 rfl
        rw [e0, e1, e2]
        refine ⟨rfl, Or.inl ?_⟩
        simp [get_fallback_action, hq]

/-- Witness for C4 on an oracle returning text-only replies. -/
theorem c4_fallback_determinism_witness :
    (analyze_query (fun _ => some [ContentItem.text "설명"]) "초밥").1.action =
      "search_restaurants" ∧
    ((analyze_query (fun _ => some [ContentItem.text "설명"]) "초밥").1.params.query =
        some "초밥" ∨
     (analyze_query (fun _ => some [ContentItem.text "설명"]) "초밥").1.params.query =
        some "기본 검색") :=
  c4_fallback_determinism (fun _ => some [ContentItem.text "설명"]) "초밥" (by decide)
    (by intro i c hc item hitem
        cases hc
        simp only [List.mem_singleton] at hitem
        subst hitem
        rfl)

/-- Characterization of the specificity condition. -/
theorem is_query_too_specific_iff (uq a : String) (p : ActionParams) :
    (is_query_too_specific uq a p).1 = true ↔
      a = "get_restaurant_details" ∧
      ((p.restaurant_name.getD "").length > 15 ∨
       contains_sub (p.restaurant_name.getD "") "맛집" = true) := by
  unfold is_query_too_specific
  by_cases ha : a = "get_restaurant_details"
  · rw [if_pos ha]
    dsimp only
    by_cases hb : (p.restaurant_name.getD "").length > 15 ∨
        contains_sub (p.restaurant_name.getD "") "맛집" = true
    · rw [if_pos (by simpa [Bool.or_eq_true, decide_eq_true_eq] using hb)]
      simp [ha, hb]
    · rw [if_neg (by simpa [Bool.or_eq_true, decide_eq_true_eq] using hb)]
      simp [ha, hb]
  · rw [if_neg ha]
    simp [ha]

/-- Characterization of the price condition, including the truthiness checks
the source performs on both bounds. -/
theorem is_price_search_problematic_iff (a : String) (p : ActionParams) :
    (is_price_search_problematic a p).1 = true ↔
      a = "search_by_price_range" ∧
      ((truthy_int p.min_price = true ∧ truthy_int p.max_price = true ∧
        p.max_price.getD 0 - p.min_price.getD 0 < 5000) ∨
       (truthy_int p.min_price = true ∧ p.min_price.getD 0 > 50000)) := by
  unfold is_price_search_problematic
  by_cases ha : a = "search_by_price_range"
  · rw [if_pos ha]
    dsimp only
    by_cases h1 : truthy_int p.min_price = true ∧ truthy_int p.max_price = true ∧
        p.max_price.getD 0 - p.min_price.getD 0 < 5000
    · rw [if_pos (by simp only [Bool.and_eq_true, decide_eq_true_eq]; tauto)]
      simp only [ha, true_and]
      tauto
    · rw [if_neg (by simp only [Bool.and_eq_true, decide_eq_true_eq]; tauto)]
      by_cases h2 : truthy_int p.min_price = true ∧ p.min_price.getD 0 > 50000
      · rw [if_pos (by simp only [Bool.and_eq_true, decide_eq_true_eq]; tauto)]
        simp only [ha, true_and]
        tauto
      · rw [if_neg (by simp only [Bool.and_eq_true, decide_eq_true_eq]; tauto)]
        simp only [ha, true_and]
        constructor
        · intro hfalse; cases hfalse
        · intro hor; tauto
  · rw [if_neg ha]
    simp [ha]

/-- Characterization of the generic-keyword condition. -/
theorem is_specific_restaurant_risky_iff (a : String) (p : ActionParams) (uq : String) :
    (is_specific_restaurant_risky a p uq).1 = true ↔
      a = "get_restaurant_details" ∧ ∃ k ∈ general_keywords, contains_sub uq k = true := by
  unfold is_specific_restaurant_risky
  by_cases ha : a = "get_restaurant_details"
  · rw [if_pos ha]
    by_cases hb : general_keywords.any (fun k => contains_sub uq k) = true
    · rw [if_pos hb]
      simp only [List.any_eq_true] at hb
      simpa [ha] using hb
    · rw [if_neg hb]
      simp only [List.any_eq_true] at hb
      simp only [ha, true_and]
      simpa using hb
  · rw [if_neg ha]
    simp [ha]

/-- Characterization of the retry predicate before the last attempt: the
boolean component fires exactly when the empty-action check or one of the
three listed conditions holds. -/
theorem should_retry_search_iff (ar : ActionResult) (uq : String) (att : Nat)
    (hatt : att < max_retries - 1) :
    (should_retry_search ar uq att).1 = true ↔
      ar.action = "" ∨
      (is_query_too_specific uq ar.action ar.params).1 = true ∨
      (is_price_search_problematic ar.action ar.params).1 = true ∨
      (is_specific_restaurant_risky ar.action ar.params uq).1 = true := by
  unfold should_retry_search
  rw [if_neg (by omega)]
  dsimp only
  by_cases he : ar.action = ""
  · simp [he]
  · rw [if_neg he]
    simp only [he, false_or]
    rcases h1 : is_query_too_specific uq ar.action ar.params with ⟨b1, r1⟩
    rcases h2 : is_price_search_problematic ar.action ar.params with ⟨b2, r2⟩
    rcases h3 : is_specific_restaurant_risky ar.action ar.params uq with ⟨b3, r3⟩
    cases b1 <;> cases b2 <;> cases b3 <;> simp [List.find?]

/-- Counterexample to claim C3 as stated: an unrecognized but nonempty action
name ("bogus_tool") satisfies the claimed retry condition (empty or
unrecognized) on a non-final attempt, yet the code does not retry — it only
checks falsiness of the action value, never membership in the catalog. -/
theorem c3_retry_counterexample :
    (0 : Nat) < max_retries - 1 ∧
    spec_retry_condition { action := "bogus_tool" } "테스트 질의" ∧
    (should_retry_search { action := "bogus_tool" } "테스트 질의" 0).1 = false := by
  refine ⟨by decide, Or.inl (Or.inr (by decide)), by decide⟩

/-- Claim C3 (amended): the retry predicate returns false (with the
max-attempts reason) from the last allowed attempt on; on earlier attempts it
retries exactly when the action is empty, or is a detail lookup with a name
over 15 characters or containing "맛집", or is a price-range search whose
present-and-nonzero bounds span less than 5000 or whose present-and-nonzero
minimum exceeds 50000, or is a detail lookup while the query contains a
generic keyword; a firing specificity condition supplies the reason ahead of
the generic-keyword condition, and the narrow-range reason is chosen ahead of
the high-floor reason. -/
theorem c3_amended_retry_characterization (ar : ActionResult) (q : String) (att : Nat) :
    (max_retries - 1 ≤ att →
      should_retry_search ar q att = (false, "최대 재시도 횟수 도달")) ∧
    (att < max_retries - 1 →
      ((should_retry_search ar q att).1 = true ↔
        ar.action = "" ∨
        (ar.action = "get_restaurant_details" ∧
          ((ar.params.restaurant_name.getD "").length > 15 ∨
           contains_sub (ar.params.restaurant_name.getD "") "맛집" = true)) ∨
        (ar.action = "search_by_price_range" ∧
          ((truthy_int ar.params.min_price = true ∧ truthy_int ar.params.max_price = true ∧
            ar.params.max_price.getD 0 - ar.params.min_price.getD 0 < 5000) ∨
           (truthy_int ar.params.min_price = true ∧ ar.params.min_price.getD 0 > 50000))) ∨
        (ar.action = "get_restaurant_details" ∧
          ∃ k ∈ general_keywords, contains_sub q k = true))) ∧
    (att < max_retries - 1 → ar.action = "get_restaurant_details" →
      ((ar.params.restaurant_name.getD "").length > 15 ∨
       contains_sub (ar.params.restaurant_name.getD "") "맛집" = true) →
      should_retry_search ar q att = (true, "너무 구체적인 식당명 검색")) ∧
    (att < max_retries - 1 → ar.action = "search_by_price_range" →
      truthy_int ar.params.min_price = true → truthy_int ar.params.max_price = true →
      ar.params.max_price.getD 0 - ar.params.min_price.getD 0 < 5000 →
      should_retry_search ar q att = (true, "가격 범위가 너무 좁음")) := by
  refine ⟨fun hle => ?_, fun hatt => ?_, fun hatt hdet hcond => ?_, fun hatt hpr hm hx hd => ?_⟩
  · unfold should_retry_search
    rw [if_pos hle]
  · rw [should_retry_search_iff ar q att hatt, is_query_too_specific_iff,
      is_price_search_problematic_iff, is_specific_restaurant_risky_iff]
  · have hc1 : is_query_too_specific q ar.action ar.params = (true, "너무 구체적인 식당명 검색") := by
      unfold is_query_too_specific
      rw [if_pos hdet]
      dsimp only
      rw [if_pos (by simpa [Bool.or_eq_true, decide_eq_true_eq] using hcond)]
    unfold should_retry_search
    rw [if_neg (by omega)]
    dsimp only
    rw [if_neg (by rw [hdet]; decide)]
    simp [List.find?, hc1]
  · have hc1 : is_query_too_specific q ar.action ar.params = (false, "") := by
      unfold is_query_too_specific
      rw [if_neg (by rw [hpr]; decide)]
    have hc2 : is_price_search_problematic ar.action ar.params = (true, "가격 범위가 너무 좁음") := by
      unfold is_price_search_problematic
      rw [if_pos hpr]
      dsimp only
      rw [if_pos (by simp [hm, hx, hd])]
    unfold should_retry_search
    rw [if_neg (by omega)]
    dsimp only
    rw [if_neg (by rw [hpr]; decide)]
    simp [List.find?, hc1, hc2]

/-- Witness for the amended C3: the last attempt, a firing specificity
condition on an earlier attempt, the specificity reason winning over the
generic-keyword condition, and the narrow-range reason winning over the
high-floor condition. -/
theorem c3_amended_retry_characterization_witness :
    should_retry_search { action := "search_restaurants", params := { query := some "집밥" } } "질의" 2 = (false, "최대 재시도 횟수 도달") ∧
    (should_retry_search { action := "get_restaurant_details", params := { restaurant_name := some "매우맛있는전통한식맛집" } } "은하수 정보" 0).1 = true ∧
    should_retry_search { action := "get_restaurant_details", params := { restaurant_name := some "매우맛있는전통한식맛집" } } "맛집 추천" 0 = (true, "너무 구체적인 식당명 검색") ∧
    should_retry_search { action := "search_by_price_range", params := { min_price := some 60000, max_price := some 61000 } } "질의" 0 = (true, "가격 범위가 너무 좁음") :=
  ⟨(c3_amended_retry_characterization { action := "search_restaurants", params := { query := some "집밥" } } "질의" 2).1
      (by decide),
   ((c3_amended_retry_characterization { action := "get_restaurant_details", params := { restaurant_name := some "매우맛있는전통한식맛집" } } "은하수 정보" 0).2.1
      (by decide)).mpr (Or.inr (Or.inl ⟨rfl, Or.inr (by decide)⟩)),
   (c3_amended_retry_characterization { action := "get_restaurant_details", params := { restaurant_name := some "매우맛있는전통한식맛집" } } "맛집 추천" 0).2.2.1
      (by decide) rfl (Or.inr (by decide)),
   (c3_amended_retry_characterization { action := "search_by_price_range", params := { min_price := some 60000, max_price := some 61000 } } "질의" 0).2.2.2
      (by decide) rfl (by decide) (by decide) (by decide)⟩

end NaverMap
